import Mathlib

/-!
# weaveutil attach / detach / rewrite-etc-hosts

A shallow embedding of `prog/weaveutil/attach.go`.

The Go functions call into collaborators (the docker client, the netns
library, the weave net package, the proxy package, a few standard-library
parsers).  Those are gathered in `Env` as oracles, so every theorem holds for
every behaviour of the collaborators.  The effects of a call are made explicit
in `World`: the ordered log of collaborator calls and the list of namespace
handles that are currently open.
-/

namespace Weave

/-! ## Data model -/

/-- A `net.IPNet`: the bytes of the address and the bytes of the mask.  An IPv4
address is kept in its four-byte form. -/
structure IPNet where
  IP : List Nat
  Mask : List Nat
  deriving DecidableEq, Repr

/-- Error values that can leave the functions of attach.go.  `lib` is an error
value handed back unchanged from a collaborator; `parseError` is the
`*net.ParseError` of `net.ParseCIDR`; every other constructor is one
`fmt.Errorf` call site of the file, carrying the values it formats. -/
inductive Error where
  | lib (msg : String)
  | parseError (kind : String) (text : String)
  | dockerConnect (cause : String)
  | inspectFailed (id : String) (cause : String)
  | notRunning (id : String)
  | openContainerNs (id : String) (cause : String)
  | openHostNs (cause : String)
  | hostNetwork
  | parseMtu (text : String) (cause : String)
  | containerDied (id : String)
  deriving DecidableEq, Repr

/-- A namespace handle (`netns.NsHandle`, a file descriptor number). -/
abbrev NsHandle := Nat

/-- The arguments of one `weavenet.AttachContainer` call, in call order. -/
structure AttachCall where
  nsPath : String
  name : String
  veth : String
  bridge : String
  mtu : Int
  withMulticastRoute : Bool
  cidrs : List IPNet
  keepTXOn : Bool
  hairpinMode : Bool
  deriving DecidableEq, Repr

/-- The arguments of one `weavenet.DetachContainer` call. -/
structure DetachCall where
  nsPath : String
  id : String
  veth : String
  cidrs : List IPNet
  deriving DecidableEq, Repr

/-- The `proxy.Config` fields that `rewriteEtcHosts` sets. -/
structure Config where
  DockerHost : String
  Image : String
  deriving DecidableEq, Repr

/-- The arguments of one `RewriteEtcHosts` call on the proxy built from `config`. -/
structure RewriteCall where
  config : Config
  hostsPath : String
  fqdn : String
  ips : List IPNet
  extraHosts : List String
  deriving DecidableEq, Repr

/-- One call to a collaborator that has an effect outside the process, or one
usage message printed. -/
inductive Event where
  | usage (cmd : String) (text : String)
  | dockerConnect (apiVersion : String)
  | inspect (id : String)
  | getFromPid (pid : Int)
  | equal (a : NsHandle) (b : NsHandle)
  | attachContainer (c : AttachCall)
  | kill (pid : Int) (sig : Nat)
  | detachContainer (c : DetachCall)
  | getenv (key : String)
  | stubProxy (c : Config)
  | rewriteEtcHosts (c : RewriteCall)
  deriving DecidableEq, Repr

/-- The collaborators of attach.go.  Errors are given by their message; `none`
is Go's `nil` error. -/
structure Env where
  /-- The call `docker.NewVersionedClientFromEnv(apiVersion)`: the error, if any. -/
  NewVersionedClientFromEnv : String → Option String
  /-- The call `c.InspectContainer(id)`, reduced to `container.State.Pid`. -/
  InspectContainer : String → Except String Int
  /-- The call `netns.GetFromPid(pid)`, given the handles that are open at the call. -/
  GetFromPid : List NsHandle → Int → Except String NsHandle
  /-- The call `a.Equal(b)` on namespace handles. -/
  Equal : NsHandle → NsHandle → Bool
  /-- The function `strconv.Atoi`: the value and the error, if any. -/
  Atoi : String → Int × Option String
  /-- The address-literal parser inside `net.ParseCIDR`: the bytes of the
  address (four for IPv4, sixteen for IPv6), or `none` when it is rejected. -/
  parseIP : String → Option (List Nat)
  /-- The function `weavenet.NSPathByPid`. -/
  NSPathByPid : Int → String
  /-- The constant `weavenet.VethName`. -/
  VethName : String
  /-- The call `weavenet.AttachContainer`: the error, if any. -/
  AttachContainer : AttachCall → Option String
  /-- The call `weavenet.DetachContainer`: the error, if any. -/
  DetachContainer : DetachCall → Option String
  /-- The call `syscall.Kill(pid, sig)`: the errno, if any. -/
  Kill : Int → Nat → Option Nat
  /-- The function `os.Getenv`. -/
  Getenv : String → String
  /-- The call `proxy.StubProxy(config)`: the error, if any. -/
  StubProxy : Config → Option String
  /-- The call `p.RewriteEtcHosts(...)`: the error, if any. -/
  RewriteEtcHosts : RewriteCall → Option String

/-- What is observable outside the function: the calls made so far, oldest
first, and the namespace handles that are open. -/
structure World where
  trace : List Event
  handles : List NsHandle
  deriving DecidableEq, Repr

/-- Append one event to the log. -/
def World.log (w : World) (e : Event) : World :=
  { w with trace := w.trace ++ [e] }

/-- Record a handle as open. -/
def World.acquire (w : World) (h : NsHandle) : World :=
  { w with handles := w.handles ++ [h] }

/-- How an invocation ends: the function returns its `error` result, the
process exits through `cmdUsage`, or the Go runtime panics on an index out of
range. -/
inductive Outcome where
  | returned (err : Option Error)
  | usageExit (cmd : String) (text : String)
  | panicked
  deriving DecidableEq, Repr

/-- The three policy flags of `attach`. -/
structure Flags where
  keepTXOn : Bool
  withMulticastRoute : Bool
  hairpinMode : Bool
  deriving DecidableEq, Repr

/-- The values the three flags are initialised with (attach.go lines 23-25). -/
def Flags.initial : Flags :=
  { keepTXOn := false, withMulticastRoute := true, hairpinMode := true }

/-! ## Standard-library helpers used by the file -/

/-- The digit value of a character, when it is an ASCII digit. -/
def digit? (c : Char) : Option Nat :=
  if 48 ≤ c.toNat ∧ c.toNat ≤ 57 then some (c.toNat - 48) else none

/-- Go's `net.dtoi` loop: decimal digits at the start of `s`, with the running
value `n` and the count `i` of characters consumed; it gives up at 0xFFFFFF. -/
def dtoiLoop : List Char → Nat → Nat → Nat × Nat × Bool
  | [], n, i => (n, i, true)
  | c :: cs, n, i =>
    match digit? c with
    | none => (n, i, true)
    | some d =>
      if n * 10 + d ≥ 0xFFFFFF then (0xFFFFFF, i, false)
      else dtoiLoop cs (n * 10 + d) (i + 1)

/-- Go's `net.dtoi`: value, characters consumed, ok. -/
def dtoi (s : List Char) : Nat × Nat × Bool :=
  match dtoiLoop s 0 0 with
  | (n, i, ok) =>
    if !ok then (n, i, false)
    else if i = 0 then (0, 0, false)
    else (n, i, true)

/-- Split at the first slash (`IndexByte(s, 0x2F)` and the two slices). -/
def splitSlash : List Char → Option (List Char × List Char)
  | [] => none
  | c :: cs =>
    if c.toNat = 47 then some ([], cs)
    else
      match splitSlash cs with
      | none => none
      | some (a, m) => some (c :: a, m)

/-- The loop of `net.CIDRMask`: `l` bytes, `n` one bits still to place. -/
def cidrMaskLoop : Nat → Nat → List Nat
  | 0, _ => []
  | l + 1, n =>
    if n ≥ 8 then 0xff :: cidrMaskLoop l (n - 8)
    else (0xff - (0xff >>> n)) :: cidrMaskLoop l 0

/-- Go's `net.CIDRMask(ones, bits)` for `ones ≤ bits`. -/
def CIDRMask (ones bits : Nat) : List Nat :=
  cidrMaskLoop (bits / 8) ones

/-- Go's `IP.Mask` on an address and a mask of the same length. -/
def maskIP (ip mask : List Nat) : List Nat :=
  List.zipWith (fun a m => a &&& m) ip mask

/-- Go's `net.ParseCIDR`: the text is split at the first slash, the address
literal is parsed (the oracle `parseIP`), the mask is a decimal prefix length
of at most the address width.  The result is the address as written and the
network: the masked address with the mask. -/
def ParseCIDR (E : Env) (s : String) : Except Error (List Nat × IPNet) :=
  match splitSlash s.toList with
  | none => .error (.parseError "CIDR address" s)
  | some (addr, mask) =>
    match E.parseIP (String.mk addr) with
    | none => .error (.parseError "CIDR address" s)
    | some ip =>
      match dtoi mask with
      | (n, i, ok) =>
        if !ok || i != mask.length || n > 8 * ip.length then
          .error (.parseError "CIDR address" s)
        else
          .ok (ip, { IP := maskIP ip (CIDRMask n (8 * ip.length)),
                     Mask := CIDRMask n (8 * ip.length) })

/-- Go's `unicode.IsSpace`. -/
def isSpace (c : Char) : Bool :=
  let n := c.toNat
  (9 ≤ n && n ≤ 13) || n = 0x20 || n = 0x85 || n = 0xA0 || n = 0x1680 ||
  (0x2000 ≤ n && n ≤ 0x200a) || n = 0x2028 || n = 0x2029 || n = 0x202f ||
  n = 0x205f || n = 0x3000

/-- The scan of `strings.Fields`: `cur` is the field being read, reversed. -/
def fieldsLoop : List Char → List Char → List String
  | [], cur => if cur.isEmpty then [] else [String.mk cur.reverse]
  | c :: cs, cur =>
    if isSpace c then
      if cur.isEmpty then fieldsLoop cs [] else String.mk cur.reverse :: fieldsLoop cs []
    else fieldsLoop cs (c :: cur)

/-- Go's `strings.Fields`: the maximal runs of non-space characters. -/
def Fields (s : String) : List String :=
  fieldsLoop s.toList []

/-! ## attach.go -/

/-- Modelled from the spec: `cmdUsage` is declared outside attach.go.  The spec
makes a malformed invocation a usage error that prints the usage text and ends
the invocation before anything else is attempted. -/
def cmdUsage (cmd text : String) (w : World) : Outcome × World :=
  (.usageExit cmd text, w.log (.usage cmd text))

/-- The flag-stripping loop of `attach` (lines 26-40), started at index `i`
with the flags found so far.  `args.take i ++ args.drop (i + 1)` is
`append(args[:i], args[i+1:]...)`. -/
def stripFlags (args : List String) (i : Nat) (fl : Flags) : List String × Flags :=
  if h : i < args.length then
    if args[i] = "--no-multicast-route" then
      stripFlags (args.take i ++ args.drop (i + 1)) i { fl with withMulticastRoute := false }
    else if args[i] = "--keep-tx-on" then
      stripFlags (args.take i ++ args.drop (i + 1)) i { fl with keepTXOn := true }
    else if args[i] = "--hairpin-mode=false" then
      stripFlags (args.take i ++ args.drop (i + 1)) i { fl with hairpinMode := false }
    else
      stripFlags args (i + 1) fl
  else
    (args, fl)
termination_by args.length - i
decreasing_by
  all_goals try simp only [List.length_append, List.length_take, List.length_drop]
  all_goals omega

/-- The function `containerPid` (lines 73-86). -/
def containerPid (E : Env) (w : World) (containerID : String) : Except Error Int × World :=
  let w1 := w.log (.dockerConnect "1.18")
  match E.NewVersionedClientFromEnv "1.18" with
  | some err => (.error (.dockerConnect err), w1)
  | none =>
    let w2 := w1.log (.inspect containerID)
    match E.InspectContainer containerID with
    | .error err => (.error (.inspectFailed containerID err), w2)
    | .ok pid =>
      if pid = 0 then (.error (.notRunning containerID), w2)
      else (.ok pid, w2)

/-- The errno `EPERM`. -/
def EPERM : Nat := 1

/-- The function `processExists` (lines 88-91): signal 0 is sent to the process. -/
def processExists (E : Env) (w : World) (pid : Int) : Bool × World :=
  let w1 := w.log (.kill pid 0)
  match E.Kill pid 0 with
  | none => (true, w1)
  | some errno => (errno == EPERM, w1)

/-- The loop of `parseCIDRs` (lines 94-101): `cidrs` is the slice built so far. -/
def parseCIDRsLoop (E : Env) : List String → List IPNet → List IPNet × Option Error
  | [], cidrs => (cidrs, none)
  | ipstr :: rest, cidrs =>
    match ParseCIDR E ipstr with
    | .error err => ([], some err)
    | .ok (ip, ipnet) => parseCIDRsLoop E rest (cidrs ++ [{ ipnet with IP := ip }])

/-- The function `parseCIDRs` (lines 93-103): the pair `(cidrs, err)` it returns. -/
def parseCIDRs (E : Env) (args : List String) : List IPNet × Option Error :=
  parseCIDRsLoop E args []

/-- The text of the usage message of `attach` (line 20). -/
def attachUsage : String :=
  "[--no-multicast-route] [--keep-tx-on] [--hairpin-mode=true|false] <container-id> <bridge-name> <mtu> <cidr>..."

/-- Lines 65-70 of `attach`: the backend call and the liveness check on its
error.  `args` is the argument list after flag stripping. -/
def attachBackend (E : Env) (w : World) (args : List String) (fl : Flags) (pid : Int)
    (mtu : Int) (cidrs : List IPNet) : Outcome × World :=
  match args[1]? with
  | none => (.panicked, w)
  | some bridge =>
    let call : AttachCall :=
      { nsPath := E.NSPathByPid pid, name := toString pid, veth := E.VethName,
        bridge := bridge, mtu := mtu, withMulticastRoute := fl.withMulticastRoute,
        cidrs := cidrs, keepTXOn := fl.keepTXOn, hairpinMode := fl.hairpinMode }
    let w1 := w.log (.attachContainer call)
    match E.AttachContainer call with
    | none => (.returned none, w1)
    | some err =>
      match processExists E w1 pid with
      | (true, w2) => (.returned (some (.lib err)), w2)
      | (false, w2) =>
        match args[0]? with
        | none => (.panicked, w2)
        | some id => (.returned (some (.containerDied id)), w2)

/-- Lines 56-63 of `attach`: the MTU and the CIDRs are parsed, then the
backend stage runs.  `args[3]` is read only when `Atoi` failed; the slice
`args[3:]` is `args.drop 3`, in range because `args[2]` has been read. -/
def attachParse (E : Env) (w : World) (args : List String) (fl : Flags) (pid : Int) :
    Outcome × World :=
  match args[2]? with
  | none => (.panicked, w)
  | some mtuText =>
    match E.Atoi mtuText with
    | (mtu, none) =>
      match parseCIDRs E (args.drop 3) with
      | (_, some err) => (.returned (some err), w)
      | (cidrs, none) => attachBackend E w args fl pid mtu cidrs
    | (mtu, some err) =>
      match args[3]? with
      | none => (.panicked, w)
      | some first =>
        if first ≠ "" then (.returned (some (.parseMtu mtuText err)), w)
        else
          match parseCIDRs E (args.drop 3) with
          | (_, some err) => (.returned (some err), w)
          | (cidrs, none) => attachBackend E w args fl pid mtu cidrs

/-- Lines 42-55 of `attach`: the container is resolved, the two namespace
handles are opened and compared.  No handle is closed anywhere in the
function. -/
def attachResolve (E : Env) (w : World) (args : List String) (fl : Flags) : Outcome × World :=
  match args[0]? with
  | none => (.panicked, w)
  | some id =>
    match containerPid E w id with
    | (.error err, w1) => (.returned (some err), w1)
    | (.ok pid, w1) =>
      let w2 := w1.log (.getFromPid pid)
      match E.GetFromPid w2.handles pid with
      | .error err => (.returned (some (.openContainerNs id err)), w2)
      | .ok nsContainer =>
        let w3 := (w2.acquire nsContainer).log (.getFromPid 1)
        match E.GetFromPid w3.handles 1 with
        | .error err => (.returned (some (.openHostNs err)), w3)
        | .ok nsHost =>
          let w4 := (w3.acquire nsHost).log (.equal nsHost nsContainer)
          if E.Equal nsHost nsContainer then (.returned (some .hostNetwork), w4)
          else attachParse E w4 args fl pid

/-- The function `attach` (lines 18-71). -/
def attach (E : Env) (w : World) (args : List String) : Outcome × World :=
  if args.length < 4 then cmdUsage "attach-container" attachUsage w
  else
    match stripFlags args 0 Flags.initial with
    | (args, fl) => attachResolve E w args fl

/-- The function `detach` (lines 105-119). -/
def detach (E : Env) (w : World) (args : List String) : Outcome × World :=
  if args.length < 2 then cmdUsage "detach-container" "<container-id> <cidr>..." w
  else
    match args[0]? with
    | none => (.panicked, w)
    | some id =>
      match containerPid E w id with
      | (.error err, w1) => (.returned (some err), w1)
      | (.ok pid, w1) =>
        match parseCIDRs E (args.drop 1) with
        | (_, some err) => (.returned (some err), w1)
        | (cidrs, none) =>
          let call : DetachCall :=
            { nsPath := E.NSPathByPid pid, id := id, veth := E.VethName, cidrs := cidrs }
          ((.returned ((E.DetachContainer call).map Error.lib)), w1.log (.detachContainer call))

/-- The loop of `rewriteEtcHosts` (lines 129-135): the network returned by
`net.ParseCIDR` is appended as it is; `ips` is the slice built so far. -/
def rewriteLoop (E : Env) : List String → List IPNet → Except Error (List IPNet)
  | [], ips => .ok ips
  | cidr :: rest, ips =>
    match ParseCIDR E cidr with
    | .error err => .error err
    | .ok (_, ipnet) => rewriteLoop E rest (ips ++ [ipnet])

/-- The function `rewriteEtcHosts` (lines 121-146). -/
def rewriteEtcHosts (E : Env) (w : World) (args : List String) : Outcome × World :=
  if args.length < 4 then
    cmdUsage "rewrite-etc-hosts" "<hosts-path> <fqdn> <image> <cidr>... [name:addr...]" w
  else
    match args with
    | hostsPath :: fqdn :: image :: cidrText :: extraHosts =>
      match rewriteLoop E (Fields cidrText) [] with
      | .error err => (.returned (some err), w)
      | .ok ips =>
        let w1 := w.log (.getenv "DOCKER_HOST")
        let docker := if E.Getenv "DOCKER_HOST" = "" then "unix:///var/run/docker.sock"
                      else E.Getenv "DOCKER_HOST"
        let config : Config := { DockerHost := docker, Image := image }
        let w2 := w1.log (.stubProxy config)
        match E.StubProxy config with
        | some err => (.returned (some (.lib err)), w2)
        | none =>
          let call : RewriteCall :=
            { config := config, hostsPath := hostsPath, fqdn := fqdn, ips := ips,
              extraHosts := extraHosts }
          (.returned ((E.RewriteEtcHosts call).map Error.lib), w2.log (.rewriteEtcHosts call))
    | _ => (.panicked, w)

/-! ## A concrete environment -/

/-- The fields of a dotted address: the text between the dots. -/
def splitDots : List Char → List Char → List (List Char)
  | [], cur => [cur.reverse]
  | c :: cs, cur =>
    if c.toNat = 46 then cur.reverse :: splitDots cs [] else splitDots cs (c :: cur)

/-- One field of a dotted-decimal address: decimal digits only, at most 255. -/
def octet? (s : List Char) : Option Nat :=
  match dtoi s with
  | (n, i, ok) => if ok && i = s.length && n ≤ 0xFF then some n else none

/-- Dotted-decimal IPv4 literals: four decimal fields of at most 255. -/
def parseIPv4 (s : String) : Option (List Nat) :=
  match splitDots s.toList [] with
  | [a, b, c, d] =>
    match octet? a, octet? b, octet? c, octet? d with
    | some a, some b, some c, some d => some [a, b, c, d]
    | _, _, _, _ => none
  | _ => none

/-- Decimal text of a natural number, most significant digit first, read
with the value `n` of the digits seen so far. -/
def decimalLoop : List Char → Nat → Option Nat
  | [], n => some n
  | c :: cs, n =>
    match digit? c with
    | none => none
    | some d => decimalLoop cs (n * 10 + d)

/-- An integer parser for the example environment: unsigned decimal text. -/
def atoiDecimal (s : String) : Int × Option String :=
  match s.toList with
  | [] => (0, some "invalid syntax")
  | c :: cs =>
    match decimalLoop (c :: cs) 0 with
    | some n => (Int.ofNat n, none)
    | none => (0, some "invalid syntax")

/-- An environment in which docker knows the container `c1` with process id
4242 in a namespace of its own (handle 12) and the container `host` with
process id 77 in the namespace of process 1 (handles 11 and 10, which `Equal`
identifies).  The backend fails with `backendErr`, and `alive` tells whether a
process can be signalled (errno 3 is `ESRCH`). -/
def exampleEnv (backendErr : Option String) (alive : Bool) : Env :=
  { NewVersionedClientFromEnv := fun _ => none
    InspectContainer := fun id =>
      if id = "c1" then .ok 4242
      else if id = "host" then .ok 77
      else .error "no such container"
    GetFromPid := fun _ pid =>
      if pid = 1 then .ok 10
      else if pid = 77 then .ok 11
      else if pid = 4242 then .ok 12
      else .error "no such process"
    Equal := fun a b => a == b || ((a == 10 || a == 11) && (b == 10 || b == 11))
    Atoi := atoiDecimal
    parseIP := parseIPv4
    NSPathByPid := fun pid => "/proc/" ++ toString pid ++ "/ns/net"
    VethName := "ethwe"
    AttachContainer := fun _ => backendErr
    DetachContainer := fun _ => backendErr
    Kill := fun _ _ => if alive then none else some 3
    Getenv := fun _ => ""
    StubProxy := fun _ => none
    RewriteEtcHosts := fun _ => none }

/-- The example environment with the namespace of process 1 out of reach:
the lookup of the host handle fails, every other lookup is as before. -/
def sealedHostEnv (backendErr : Option String) (alive : Bool) : Env :=
  { exampleEnv backendErr alive with
    GetFromPid := fun opened pid =>
      if pid = 1 then .error "permission denied"
      else (exampleEnv backendErr alive).GetFromPid opened pid }

/-- The world before an invocation: nothing logged, no handle open. -/
def World.empty : World := { trace := [], handles := [] }

/-! ## Vocabulary of the properties -/

/-- The three tokens the loop of `attach` removes. -/
def isFlag (a : String) : Bool :=
  a = "--no-multicast-route" || a = "--keep-tx-on" || a = "--hairpin-mode=false"

/-- The flags as the occurrences of the three tokens in `l` decide them,
starting from `fl`: a flag leaves its value exactly when its token occurs. -/
def flagsAfter (fl : Flags) (l : List String) : Flags :=
  { keepTXOn := fl.keepTXOn || decide ("--keep-tx-on" ∈ l)
    withMulticastRoute := fl.withMulticastRoute && !decide ("--no-multicast-route" ∈ l)
    hairpinMode := fl.hairpinMode && !decide ("--hairpin-mode=false" ∈ l) }

/-- The range the spec asks of the CIDR Parser for one string: the address as
written, with the mask of the string; `none` when the string is rejected. -/
def hostRange (E : Env) (s : String) : Option IPNet :=
  match ParseCIDR E s with
  | .ok (ip, ipnet) => some { IP := ip, Mask := ipnet.Mask }
  | .error _ => none

/-- The `AttachContainer` calls of a log, oldest first. -/
def backendCalls (w : World) : List AttachCall :=
  w.trace.filterMap fun e =>
    match e with
    | .attachContainer c => some c
    | _ => none

/-- The world once the container has been resolved to `pid` and the handles
`nsContainer` and `nsHost` have been opened and compared. -/
def guardWorld (w : World) (id : String) (pid : Int) (nsContainer nsHost : NsHandle) : World :=
  { trace := w.trace ++ [.dockerConnect "1.18", .inspect id, .getFromPid pid, .getFromPid 1,
      .equal nsHost nsContainer]
    handles := w.handles ++ [nsContainer, nsHost] }

/-- The `AttachContainer` call that `attach` builds (line 65) from the process
id, the flags, the bridge name, the MTU and the ranges. -/
def attachCall (E : Env) (pid : Int) (fl : Flags) (bridge : String) (mtu : Int)
    (cidrs : List IPNet) : AttachCall :=
  { nsPath := E.NSPathByPid pid, name := toString pid, veth := E.VethName,
    bridge := bridge, mtu := mtu, withMulticastRoute := fl.withMulticastRoute,
    cidrs := cidrs, keepTXOn := fl.keepTXOn, hairpinMode := fl.hairpinMode }

/-- An invocation of `attach` that is not a usage error, in which the first
argument left by flag stripping is `id`, the container `id` resolves to the
process `pid`, and both namespace handles are obtained. -/
structure Resolved (E : Env) (w : World) (args : List String) (id : String)
    (rest : List String) (fl : Flags) (pid : Int) (nsContainer nsHost : NsHandle) : Prop where
  enough : 4 ≤ args.length
  stripped : stripFlags args 0 Flags.initial = (id :: rest, fl)
  resolves : (containerPid E w id).1 = .ok pid
  containerNs : E.GetFromPid w.handles pid = .ok nsContainer
  hostNs : E.GetFromPid (w.handles ++ [nsContainer]) 1 = .ok nsHost

/-- An invocation of `attach` that is not a usage error, in which the first
argument left by flag stripping is `id`, the container `id` resolves to the
process `pid`, and the handle `nsContainer` of its namespace is obtained: the
invocations in which `attach` opens a handle at all. -/
structure ContainerOpened (E : Env) (w : World) (args : List String) (id : String)
    (rest : List String) (fl : Flags) (pid : Int) (nsContainer : NsHandle) : Prop where
  enough : 4 ≤ args.length
  stripped : stripFlags args 0 Flags.initial = (id :: rest, fl)
  resolves : (containerPid E w id).1 = .ok pid
  containerNs : E.GetFromPid w.handles pid = .ok nsContainer

/-! ## Lemmas on the flag-stripping loop -/

theorem take_append_drop_succ_take (args : List String) (i : Nat) (h : i < args.length) :
    (args.take i ++ args.drop (i + 1)).take i = args.take i := by
  rw [List.take_append_of_le_length (by simp [List.length_take]; omega)]
  rw [List.take_take]; simp

theorem take_append_drop_succ_drop (args : List String) (i : Nat) (h : i < args.length) :
    (args.take i ++ args.drop (i + 1)).drop i = args.drop (i + 1) := by
  have hl : (args.take i).length = i := by simp [List.length_take]; omega
  have hd := @List.drop_left _ (args.take i) (args.drop (i + 1))
  rw [hl] at hd
  exact hd

theorem stripFlags_eq (args : List String) (i : Nat) (fl : Flags) :
    stripFlags args i fl =
      (args.take i ++ (args.drop i).filter (fun a => !isFlag a), flagsAfter fl (args.drop i)) := by
  induction args, i, fl using stripFlags.induct with
  | case1 args i fl h h1 ih =>
    rw [stripFlags, dif_pos h, if_pos h1, ih, take_append_drop_succ_take _ _ h,
      take_append_drop_succ_drop _ _ h, List.drop_eq_getElem_cons h, h1]
    simp [isFlag, flagsAfter]
  | case2 args i fl h h1 h2 ih =>
    rw [stripFlags, dif_pos h, if_neg h1, if_pos h2, ih, take_append_drop_succ_take _ _ h,
      take_append_drop_succ_drop _ _ h, List.drop_eq_getElem_cons h, h2]
    simp [isFlag, flagsAfter]
  | case3 args i fl h h1 h2 h3 ih =>
    rw [stripFlags, dif_pos h, if_neg h1, if_neg h2, if_pos h3, ih, take_append_drop_succ_take _ _ h,
      take_append_drop_succ_drop _ _ h, List.drop_eq_getElem_cons h, h3]
    simp [isFlag, flagsAfter]
  | case4 args i fl h h1 h2 h3 ih =>
    rw [stripFlags, dif_pos h, if_neg h1, if_neg h2, if_neg h3, ih, List.drop_eq_getElem_cons h]
    have e1 : ("--no-multicast-route" = args[i]) = False := eq_false (fun e => h1 e.symm)
    have e2 : ("--keep-tx-on" = args[i]) = False := eq_false (fun e => h2 e.symm)
    have e3 : ("--hairpin-mode=false" = args[i]) = False := eq_false (fun e => h3 e.symm)
    have hf : isFlag args[i] = false := by
      simp only [isFlag, h1, h2, h3, decide_False, Bool.or_self]
    have ht : List.take (i + 1) args = List.take i args ++ [args[i]] := by
      rw [List.take_succ, List.getElem?_eq_getElem h]; rfl
    simp only [flagsAfter, List.mem_cons, e1, e2, e3, false_or, List.filter_cons, hf,
      Bool.not_false, if_true, ht, List.append_assoc, List.singleton_append]
  | case5 args i fl h =>
    rw [stripFlags, dif_neg h]
    have : args.length ≤ i := by omega
    simp [List.take_of_length_le this, List.drop_of_length_le this, flagsAfter]


/-! ## Lemmas on the CIDR loops -/

theorem parseCIDRsLoop_ok (E : Env) (args : List String) :
    ∀ cidrs : List IPNet, (∀ s ∈ args, ∃ r, ParseCIDR E s = .ok r) →
      parseCIDRsLoop E args cidrs = (cidrs ++ args.filterMap (hostRange E), none) := by
  induction args with
  | nil => intro cidrs _; simp [parseCIDRsLoop]
  | cons s rest ih =>
    intro cidrs h
    obtain ⟨⟨ip, ipnet⟩, hr⟩ := h s (List.mem_cons_self _ _)
    have hrest : ∀ t ∈ rest, ∃ r, ParseCIDR E t = .ok r :=
      fun t ht => h t (List.mem_cons_of_mem _ ht)
    simp [parseCIDRsLoop, hr, ih _ hrest, hostRange, List.filterMap_cons]

theorem parseCIDRsLoop_error (E : Env) (args : List String) :
    ∀ cidrs : List IPNet, (∃ s ∈ args, ∃ e, ParseCIDR E s = .error e) →
      (parseCIDRsLoop E args cidrs).1 = [] ∧
        ∃ s ∈ args, ∃ e, ParseCIDR E s = .error e ∧ (parseCIDRsLoop E args cidrs).2 = some e := by
  induction args with
  | nil => intro cidrs h; obtain ⟨s, hs, _⟩ := h; cases hs
  | cons s rest ih =>
    intro cidrs h
    cases hr : ParseCIDR E s with
    | error e =>
      exact ⟨by simp [parseCIDRsLoop, hr], s, List.mem_cons_self _ _, e, hr,
        by simp [parseCIDRsLoop, hr]⟩
    | ok r =>
      obtain ⟨ip, ipnet⟩ := r
      have hrest : ∃ t ∈ rest, ∃ e, ParseCIDR E t = .error e := by
        obtain ⟨t, ht, e, he⟩ := h
        rcases List.mem_cons.mp ht with rfl | ht
        · rw [hr] at he; cases he
        · exact ⟨t, ht, e, he⟩
      obtain ⟨h1, t, ht, e, he, h2⟩ := ih (cidrs ++ [{ ipnet with IP := ip }]) hrest
      refine ⟨by simpa [parseCIDRsLoop, hr] using h1, t, List.mem_cons_of_mem _ ht, e, he, ?_⟩
      simpa [parseCIDRsLoop, hr] using h2

theorem filterMap_hostRange_getElem? (E : Env) (args : List String)
    (h : ∀ s ∈ args, ∃ r, ParseCIDR E s = .ok r) (i : Nat) (s : String)
    (hs : args[i]? = some s) :
    ∃ ip ipnet, ParseCIDR E s = .ok (ip, ipnet) ∧
      (args.filterMap (hostRange E))[i]? = some { IP := ip, Mask := ipnet.Mask } := by
  induction args generalizing i with
  | nil => simp at hs
  | cons a rest ih =>
    obtain ⟨⟨ip, ipnet⟩, hr⟩ := h a (List.mem_cons_self _ _)
    have hrest : ∀ t ∈ rest, ∃ r, ParseCIDR E t = .ok r :=
      fun t ht => h t (List.mem_cons_of_mem _ ht)
    have ha : hostRange E a = some { IP := ip, Mask := ipnet.Mask } := by simp [hostRange, hr]
    cases i with
    | zero =>
      simp at hs
      subst hs
      exact ⟨ip, ipnet, hr, by simp [List.filterMap_cons, ha]⟩
    | succ j =>
      simp at hs
      obtain ⟨ip2, ipnet2, h1, h2⟩ := ih hrest j hs
      exact ⟨ip2, ipnet2, h1, by simpa [List.filterMap_cons, ha] using h2⟩

theorem filterMap_hostRange_length (E : Env) (args : List String)
    (h : ∀ s ∈ args, ∃ r, ParseCIDR E s = .ok r) :
    (args.filterMap (hostRange E)).length = args.length := by
  induction args with
  | nil => simp
  | cons a rest ih =>
    obtain ⟨⟨ip, ipnet⟩, hr⟩ := h a (List.mem_cons_self _ _)
    have hrest : ∀ t ∈ rest, ∃ r, ParseCIDR E t = .ok r :=
      fun t ht => h t (List.mem_cons_of_mem _ ht)
    have ha : hostRange E a = some { IP := ip, Mask := ipnet.Mask } := by simp [hostRange, hr]
    simp [List.filterMap_cons, ha, ih hrest]

/-! ## The claims -/

/-- C1: `parseCIDRs` is all or nothing and keeps the order.  When every string
is accepted by CIDR parsing, no error is returned, the result is as long as
the input, and its i-th element is the address written in the i-th string (the
first result of `ParseCIDR`, not the masked address of the network) with the
mask of that string.  When some string is rejected, the list returned is nil
and the error is the parse error of a rejected string. -/
theorem parseCIDRs_all_or_nothing (E : Env) (args : List String) :
    ((∀ s ∈ args, ∃ r, ParseCIDR E s = .ok r) →
      (parseCIDRs E args).2 = none ∧
      (parseCIDRs E args).1.length = args.length ∧
      ∀ (i : Nat) (s : String), args[i]? = some s →
        ∃ ip ipnet, ParseCIDR E s = .ok (ip, ipnet) ∧
          (parseCIDRs E args).1[i]? = some { IP := ip, Mask := ipnet.Mask }) ∧
    ((∃ s ∈ args, ∃ e, ParseCIDR E s = .error e) →
      (parseCIDRs E args).1 = [] ∧
      ∃ s ∈ args, ∃ e, ParseCIDR E s = .error e ∧ (parseCIDRs E args).2 = some e) := by
  constructor
  · intro h
    have hl := parseCIDRsLoop_ok E args [] h
    simp only [List.nil_append] at hl
    unfold parseCIDRs
    rw [hl]
    exact ⟨rfl, filterMap_hostRange_length E args h,
      fun i s hs => filterMap_hostRange_getElem? E args h i s hs⟩
  · intro h
    exact parseCIDRsLoop_error E args [] h

/-- C1 at a concrete list: both strings are accepted, the second range keeps
the address 10.0.0.2 although its network is 10.0.0.0; and a list whose second
string is rejected gives nil and the error of that string. -/
theorem parseCIDRs_all_or_nothing_witness :
    parseCIDRs (exampleEnv none true) ["10.32.0.5/12", "10.0.0.2/24"] =
        ([{ IP := [10, 32, 0, 5], Mask := [255, 240, 0, 0] },
          { IP := [10, 0, 0, 2], Mask := [255, 255, 255, 0] }], none) ∧
      ParseCIDR (exampleEnv none true) "10.0.0.2/24" =
        .ok ([10, 0, 0, 2], { IP := [10, 0, 0, 0], Mask := [255, 255, 255, 0] }) ∧
      (parseCIDRs (exampleEnv none true) ["10.32.0.5/12", "10.0.0.2/33"]).1 = [] ∧
      (parseCIDRs (exampleEnv none true) ["10.32.0.5/12", "10.0.0.2"]).1 = [] := by
  refine ⟨by decide, rfl, ?_, ?_⟩
  · exact ((parseCIDRs_all_or_nothing (exampleEnv none true) ["10.32.0.5/12", "10.0.0.2/33"]).2
      ⟨"10.0.0.2/33", by decide, .parseError "CIDR address" "10.0.0.2/33", rfl⟩).1
  · exact ((parseCIDRs_all_or_nothing (exampleEnv none true) ["10.32.0.5/12", "10.0.0.2"]).2
      ⟨"10.0.0.2", by decide, .parseError "CIDR address" "10.0.0.2", rfl⟩).1

/-- C6: the flag-stripping loop of `attach` is position-independent.  Started
at index 0 with the initial flags, it leaves the input with every occurrence
of the three flag tokens removed and every other token kept in its place in
the order, and it changes each flag from its initial value exactly when the
token of that flag occurs in the input.  Hence two argument lists with the
same non-flag tokens in the same order and the same flag tokens present are
stripped to the same list and the same flags. -/
theorem stripFlags_position_independent (args : List String) :
    stripFlags args 0 Flags.initial =
        (args.filter (fun a => !isFlag a),
          { keepTXOn := decide ("--keep-tx-on" ∈ args)
            withMulticastRoute := !decide ("--no-multicast-route" ∈ args)
            hairpinMode := !decide ("--hairpin-mode=false" ∈ args) }) ∧
      ∀ other : List String,
        other.filter (fun a => !isFlag a) = args.filter (fun a => !isFlag a) →
        ("--keep-tx-on" ∈ other ↔ "--keep-tx-on" ∈ args) →
        ("--no-multicast-route" ∈ other ↔ "--no-multicast-route" ∈ args) →
        ("--hairpin-mode=false" ∈ other ↔ "--hairpin-mode=false" ∈ args) →
        stripFlags other 0 Flags.initial = stripFlags args 0 Flags.initial := by
  have key : ∀ l : List String, stripFlags l 0 Flags.initial =
      (l.filter (fun a => !isFlag a),
        { keepTXOn := decide ("--keep-tx-on" ∈ l)
          withMulticastRoute := !decide ("--no-multicast-route" ∈ l)
          hairpinMode := !decide ("--hairpin-mode=false" ∈ l) }) := by
    intro l
    rw [stripFlags_eq]
    simp [flagsAfter, Flags.initial]
  refine ⟨key args, ?_⟩
  intro other hf h1 h2 h3
  rw [key other, key args, hf]
  simp only [h1, h2, h3]

/-- C6 on the example of the spec: the two flags in two different placements
give the same positional list and the same flags. -/
theorem stripFlags_position_independent_witness :
    stripFlags ["--keep-tx-on", "c1", "br0", "1400", "--no-multicast-route", "10.0.0.1/24"] 0
        Flags.initial =
        (["c1", "br0", "1400", "10.0.0.1/24"],
          { keepTXOn := true, withMulticastRoute := false, hairpinMode := true }) ∧
      stripFlags ["c1", "--no-multicast-route", "br0", "1400", "10.0.0.1/24", "--keep-tx-on"] 0
        Flags.initial =
      stripFlags ["--keep-tx-on", "c1", "br0", "1400", "--no-multicast-route", "10.0.0.1/24"] 0
        Flags.initial :=
  ⟨(stripFlags_position_independent
      ["--keep-tx-on", "c1", "br0", "1400", "--no-multicast-route", "10.0.0.1/24"]).1.trans
      (by decide),
    (stripFlags_position_independent
      ["--keep-tx-on", "c1", "br0", "1400", "--no-multicast-route", "10.0.0.1/24"]).2
      ["c1", "--no-multicast-route", "br0", "1400", "10.0.0.1/24", "--keep-tx-on"]
      (by decide) (by decide) (by decide) (by decide)⟩

theorem ParseCIDR_empty (E : Env) :
    ParseCIDR E "" = .error (.parseError "CIDR address" "") := rfl

theorem parseCIDRs_empty_first (E : Env) (more : List String) :
    parseCIDRs E ("" :: more) = ([], some (.parseError "CIDR address" "")) := by
  simp [parseCIDRs, parseCIDRsLoop, ParseCIDR_empty]

theorem backendCalls_log (w : World) (e : Event) :
    backendCalls (w.log e) =
      backendCalls w ++ (match e with
        | .attachContainer c => [c]
        | _ => []) := by
  cases e <;> simp [backendCalls, World.log, List.filterMap_append]

theorem containerPid_ok (E : Env) (w : World) (id : String) (pid : Int)
    (h : (containerPid E w id).1 = .ok pid) :
    containerPid E w id = (.ok pid, (w.log (.dockerConnect "1.18")).log (.inspect id)) := by
  unfold containerPid at h ⊢
  cases hc : E.NewVersionedClientFromEnv "1.18" with
  | some err => simp [hc] at h
  | none =>
    cases hi : E.InspectContainer id with
    | error err => simp [hc, hi] at h
    | ok p =>
      by_cases hp : p = 0
      · simp [hc, hi, hp] at h
      · simp [hc, hi, hp] at h
        subst h
        simp [hc, hi, hp]

theorem containerPid_world (E : Env) (w : World) (id : String) :
    (containerPid E w id).2.handles = w.handles ∧
      backendCalls (containerPid E w id).2 = backendCalls w := by
  unfold containerPid
  cases hc : E.NewVersionedClientFromEnv "1.18" with
  | some err => simp [backendCalls_log]; rfl
  | none =>
    cases hi : E.InspectContainer id with
    | error err => simp [backendCalls_log]; rfl
    | ok p =>
      by_cases hp : p = 0
      · simp [hp, backendCalls_log]; rfl
      · simp [hp, backendCalls_log]; rfl

theorem attach_resolved (E : Env) (w : World) (args : List String) (id : String)
    (rest : List String) (fl : Flags) (pid : Int) (nsContainer nsHost : NsHandle)
    (h : Resolved E w args id rest fl pid nsContainer nsHost) :
    attach E w args =
      if E.Equal nsHost nsContainer then
        (.returned (some .hostNetwork), guardWorld w id pid nsContainer nsHost)
      else attachParse E (guardWorld w id pid nsContainer nsHost) (id :: rest) fl pid := by
  have hlen : ¬ args.length < 4 := by have := h.enough; omega
  have hc := h.containerNs
  have hh := h.hostNs
  simp only [World.log, World.acquire] at *
  simp [attach, hlen, h.stripped, attachResolve, containerPid_ok E w id pid h.resolves,
    World.log, World.acquire, hc, hh, guardWorld]

theorem processExists_world (E : Env) (w : World) (pid : Int) :
    (processExists E w pid).2 = w.log (.kill pid 0) := by
  unfold processExists
  cases E.Kill pid 0 <;> rfl

theorem attachBackend_world (E : Env) (w : World) (args : List String) (fl : Flags)
    (pid mtu : Int) (cidrs : List IPNet) :
    (attachBackend E w args fl pid mtu cidrs).2.handles = w.handles ∧
    (attachBackend E w args fl pid mtu cidrs).1 ≠ .returned (some .hostNetwork) ∧
    (backendCalls (attachBackend E w args fl pid mtu cidrs).2 = backendCalls w ∨
      ∃ bridge, args[1]? = some bridge ∧
        backendCalls (attachBackend E w args fl pid mtu cidrs).2 = backendCalls w ++
          [{ nsPath := E.NSPathByPid pid, name := toString pid, veth := E.VethName,
             bridge := bridge, mtu := mtu, withMulticastRoute := fl.withMulticastRoute,
             cidrs := cidrs, keepTXOn := fl.keepTXOn, hairpinMode := fl.hairpinMode }]) := by
  unfold attachBackend
  cases h1 : args[1]? with
  | none => simp
  | some bridge =>
    simp only []
    cases hb : E.AttachContainer _ with
    | none => simp [backendCalls_log]; rfl
    | some err =>
      have hw := processExists_world E
        (w.log (.attachContainer
          { nsPath := E.NSPathByPid pid, name := toString pid, veth := E.VethName,
            bridge := bridge, mtu := mtu, withMulticastRoute := fl.withMulticastRoute,
            cidrs := cidrs, keepTXOn := fl.keepTXOn, hairpinMode := fl.hairpinMode })) pid
      rcases hp : processExists E _ pid with ⟨b, w2⟩
      rw [hp] at hw
      simp only at hw
      subst hw
      cases b with
      | true => simp [backendCalls_log]; rfl
      | false =>
        cases h0 : args[0]? with
        | none => simp [backendCalls_log]; rfl
        | some id => simp [backendCalls_log]; rfl

theorem ParseCIDR_error (E : Env) (s : String) (e : Error)
    (h : ParseCIDR E s = .error e) : e = .parseError "CIDR address" s := by
  unfold ParseCIDR at h
  split at h
  · cases h; rfl
  · split at h
    · cases h; rfl
    · split at h
      split at h
      · cases h; rfl
      · cases h

theorem parseCIDRsLoop_error_kind (E : Env) (args : List String) :
    ∀ (cidrs : List IPNet) (e : Error), (parseCIDRsLoop E args cidrs).2 = some e →
      ∃ s, e = .parseError "CIDR address" s := by
  induction args with
  | nil => intro cidrs e h; simp [parseCIDRsLoop] at h
  | cons s rest ih =>
    intro cidrs e h
    cases hr : ParseCIDR E s with
    | error err =>
      simp [parseCIDRsLoop, hr] at h
      subst h
      exact ⟨s, ParseCIDR_error E s _ hr⟩
    | ok r =>
      obtain ⟨ip, ipnet⟩ := r
      simp [parseCIDRsLoop, hr] at h
      exact ih _ e h

theorem parseCIDRs_error_kind (E : Env) (args : List String) (e : Error)
    (h : (parseCIDRs E args).2 = some e) : ∃ s, e = .parseError "CIDR address" s :=
  parseCIDRsLoop_error_kind E args [] e h

theorem drop_three_of_getElem? (args : List String) (first : String)
    (h : args[3]? = some first) : args.drop 3 = first :: args.drop 4 := by
  match args, h with
  | _ :: _ :: _ :: a :: more, h =>
    simp at h
    simp [h]

theorem attachParse_world (E : Env) (w : World) (args : List String) (fl : Flags) (pid : Int) :
    (attachParse E w args fl pid).2.handles = w.handles ∧
    (attachParse E w args fl pid).1 ≠ .returned (some .hostNetwork) ∧
    (backendCalls (attachParse E w args fl pid).2 = backendCalls w ∨
      ∃ bridge mtuText, args[1]? = some bridge ∧ args[2]? = some mtuText ∧
        (E.Atoi mtuText).2 = none ∧ (parseCIDRs E (args.drop 3)).2 = none ∧
        backendCalls (attachParse E w args fl pid).2 = backendCalls w ++
          [{ nsPath := E.NSPathByPid pid, name := toString pid, veth := E.VethName,
             bridge := bridge, mtu := (E.Atoi mtuText).1,
             withMulticastRoute := fl.withMulticastRoute,
             cidrs := (parseCIDRs E (args.drop 3)).1, keepTXOn := fl.keepTXOn,
             hairpinMode := fl.hairpinMode }]) := by
  unfold attachParse
  cases h2 : args[2]? with
  | none => simp
  | some mtuText =>
    simp only []
    rcases ha : E.Atoi mtuText with ⟨mtu, _ | err⟩
    · simp only []
      rcases hp : parseCIDRs E (args.drop 3) with ⟨cidrs, _ | e⟩
      · simp only []
        obtain ⟨b1, b2, b3⟩ := attachBackend_world E w args fl pid mtu cidrs
        refine ⟨b1, b2, ?_⟩
        rcases b3 with b3 | ⟨bridge, hb, b3⟩
        · exact Or.inl b3
        · refine Or.inr ⟨bridge, mtuText, hb, ?_, ?_, ?_, ?_⟩
          · trivial
          · simp [ha]
          · trivial
          · simpa [ha] using b3
      · simp only []
        obtain ⟨s, hs⟩ := parseCIDRs_error_kind E _ e (by rw [hp])
        subst hs
        simp
    · simp only []
      cases h3 : args[3]? with
      | none => simp
      | some first =>
        simp only []
        by_cases hf : first = ""
        · subst hf
          simp [drop_three_of_getElem? args "" h3, parseCIDRs_empty_first]
        · simp [hf]

theorem attach_resolved_parse (E : Env) (w : World) (args : List String) (id : String)
    (rest : List String) (fl : Flags) (pid : Int) (nsContainer nsHost : NsHandle)
    (h : Resolved E w args id rest fl pid nsContainer nsHost)
    (hne : E.Equal nsHost nsContainer = false) :
    attach E w args = attachParse E (guardWorld w id pid nsContainer nsHost) (id :: rest) fl pid := by
  rw [attach_resolved E w args id rest fl pid nsContainer nsHost h, hne]
  simp

theorem backendCalls_guardWorld (w : World) (id : String) (pid : Int)
    (nsContainer nsHost : NsHandle) :
    backendCalls (guardWorld w id pid nsContainer nsHost) = backendCalls w := by
  simp [backendCalls, guardWorld, List.filterMap_append]

/-- C2: in an invocation where the container resolves to a process id and both
namespace handles are obtained, `attach` returns the host-networking error
exactly when the host handle equals the container handle.  In that case the
log gains the five lookup events only, so `AttachContainer` is not called;
when the handles are distinct `attach` continues with MTU parsing. -/
theorem attach_host_network_guard (E : Env) (w : World) (args : List String) (id : String)
    (rest : List String) (fl : Flags) (pid : Int) (nsContainer nsHost : NsHandle)
    (h : Resolved E w args id rest fl pid nsContainer nsHost) :
    (E.Equal nsHost nsContainer = true →
      attach E w args =
          (.returned (some .hostNetwork), guardWorld w id pid nsContainer nsHost) ∧
        backendCalls (attach E w args).2 = backendCalls w) ∧
    (E.Equal nsHost nsContainer = false →
      attach E w args =
        attachParse E (guardWorld w id pid nsContainer nsHost) (id :: rest) fl pid) ∧
    ((attach E w args).1 = .returned (some .hostNetwork) ↔
      E.Equal nsHost nsContainer = true) := by
  have hr := attach_resolved E w args id rest fl pid nsContainer nsHost h
  refine ⟨?_, ?_, ?_⟩
  · intro he
    rw [hr, he]
    simp [backendCalls_guardWorld]
  · intro he
    exact attach_resolved_parse E w args id rest fl pid nsContainer nsHost h he
  · constructor
    · intro ho
      by_contra hne
      have hne2 : E.Equal nsHost nsContainer = false := by simpa using hne
      rw [attach_resolved_parse E w args id rest fl pid nsContainer nsHost h hne2] at ho
      exact (attachParse_world E _ _ fl pid).2.1 ho
    · intro he
      rw [hr, he]
      simp

/-- C2 on a container that shares the namespace of process 1: the invocation
is rejected and the backend is not called. -/
theorem attach_host_network_guard_witness :
    attach (exampleEnv none true) World.empty ["host", "weave", "1400", "10.32.0.5/12"] =
        (.returned (some .hostNetwork), guardWorld World.empty "host" 77 11 10) ∧
      backendCalls
        (attach (exampleEnv none true) World.empty ["host", "weave", "1400", "10.32.0.5/12"]).2 =
        backendCalls World.empty :=
  (attach_host_network_guard (exampleEnv none true) World.empty
    ["host", "weave", "1400", "10.32.0.5/12"] "host" ["weave", "1400", "10.32.0.5/12"]
    Flags.initial 77 11 10
    ⟨by decide, by rw [stripFlags_eq]; decide, rfl, rfl, rfl⟩).1 (by decide)

theorem attachParse_mtu_ok (E : Env) (w : World) (id bridge mtuText : String)
    (tail : List String) (fl : Flags) (pid mtu : Int) (cidrs : List IPNet)
    (hmtu : E.Atoi mtuText = (mtu, none)) (hcidrs : parseCIDRs E tail = (cidrs, none)) :
    attachParse E w (id :: bridge :: mtuText :: tail) fl pid =
      match E.AttachContainer (attachCall E pid fl bridge mtu cidrs) with
      | none => (.returned none, w.log (.attachContainer (attachCall E pid fl bridge mtu cidrs)))
      | some err =>
        if (processExists E (w.log (.attachContainer (attachCall E pid fl bridge mtu cidrs)))
            pid).1 then
          (.returned (some (.lib err)),
            (w.log (.attachContainer (attachCall E pid fl bridge mtu cidrs))).log (.kill pid 0))
        else
          (.returned (some (.containerDied id)),
            (w.log (.attachContainer (attachCall E pid fl bridge mtu cidrs))).log (.kill pid 0)) := by
  simp only [attachParse, List.getElem?_cons_succ, List.getElem?_cons_zero, hmtu, List.drop_succ_cons,
    List.drop_zero, hcidrs, attachBackend, attachCall]
  cases hb : E.AttachContainer _ with
  | none => rfl
  | some err =>
    simp only []
    have hw := processExists_world E
      (w.log (.attachContainer (attachCall E pid fl bridge mtu cidrs))) pid
    simp only [attachCall] at hw
    rcases hp : processExists E _ pid with ⟨b, w2⟩
    rw [hp] at hw
    simp only at hw
    subst hw
    cases b <;> simp

theorem processExists_fst (E : Env) (w w2 : World) (pid : Int) :
    (processExists E w pid).1 = (processExists E w2 pid).1 := by
  unfold processExists
  cases E.Kill pid 0 <;> rfl

/-- C3: in an invocation that reaches the backend call (the container
resolves, the handles are distinct, the MTU parses, the CIDRs parse), `attach`
returns no error when `AttachContainer` returns none; when `AttachContainer`
returns the error `e`, `attach` returns the container-died error for the
container id if `processExists` is false for the process id, and returns `e`
itself if `processExists` is true. -/
theorem attach_backend_error_reclassified (E : Env) (w : World) (args : List String)
    (id bridge mtuText : String) (tail : List String) (fl : Flags) (pid : Int)
    (nsContainer nsHost : NsHandle) (mtu : Int) (cidrs : List IPNet)
    (h : Resolved E w args id (bridge :: mtuText :: tail) fl pid nsContainer nsHost)
    (hne : E.Equal nsHost nsContainer = false)
    (hmtu : E.Atoi mtuText = (mtu, none))
    (hcidrs : parseCIDRs E tail = (cidrs, none)) :
    (E.AttachContainer (attachCall E pid fl bridge mtu cidrs) = none →
      (attach E w args).1 = .returned none) ∧
    (∀ e, E.AttachContainer (attachCall E pid fl bridge mtu cidrs) = some e →
      ((processExists E w pid).1 = false →
        (attach E w args).1 = .returned (some (.containerDied id))) ∧
      ((processExists E w pid).1 = true →
        (attach E w args).1 = .returned (some (.lib e)))) := by
  rw [attach_resolved_parse E w args id _ fl pid nsContainer nsHost h hne,
    attachParse_mtu_ok E _ id bridge mtuText tail fl pid mtu cidrs hmtu hcidrs]
  refine ⟨?_, ?_⟩
  · intro hb
    rw [hb]
  · intro e hb
    rw [hb]
    constructor
    · intro hp
      rw [processExists_fst E w ((guardWorld w id pid nsContainer nsHost).log
        (.attachContainer (attachCall E pid fl bridge mtu cidrs))) pid] at hp
      simp [hp]
    · intro hp
      rw [processExists_fst E w ((guardWorld w id pid nsContainer nsHost).log
        (.attachContainer (attachCall E pid fl bridge mtu cidrs))) pid] at hp
      simp [hp]

/-- C3 on a container whose process is gone when the backend fails: the
caller is told that the container died; with the process alive the backend
error comes back as it is. -/
theorem attach_backend_error_reclassified_witness :
    (attach (exampleEnv (some "boom") false) World.empty
        ["c1", "weave", "1400", "10.32.0.5/12"]).1 = .returned (some (.containerDied "c1")) ∧
      (attach (exampleEnv (some "boom") true) World.empty
        ["c1", "weave", "1400", "10.32.0.5/12"]).1 = .returned (some (.lib "boom")) :=
  ⟨((attach_backend_error_reclassified (exampleEnv (some "boom") false) World.empty
      ["c1", "weave", "1400", "10.32.0.5/12"] "c1" "weave" "1400" ["10.32.0.5/12"]
      Flags.initial 4242 12 10 1400 [{ IP := [10, 32, 0, 5], Mask := [255, 240, 0, 0] }]
      ⟨by decide, by rw [stripFlags_eq]; decide, rfl, rfl, rfl⟩ (by decide) (by decide)
      (by decide)).2 "boom" rfl).1 (by decide),
    ((attach_backend_error_reclassified (exampleEnv (some "boom") true) World.empty
      ["c1", "weave", "1400", "10.32.0.5/12"] "c1" "weave" "1400" ["10.32.0.5/12"]
      Flags.initial 4242 12 10 1400 [{ IP := [10, 32, 0, 5], Mask := [255, 240, 0, 0] }]
      ⟨by decide, by rw [stripFlags_eq]; decide, rfl, rfl, rfl⟩ (by decide) (by decide)
      (by decide)).2 "boom" rfl).2 (by decide)⟩
/-- C7: on the success path of `attach` (four or more arguments are left by
flag stripping, the container resolves to `pid`, the handles are obtained and
distinct, the MTU text parses to `mtu`, every CIDR parses), the log gains
exactly one `AttachContainer` call.  Its arguments are `NSPathByPid pid`, the
decimal text of `pid`, `VethName`, the second positional argument as bridge
name, `mtu`, the ranges `parseCIDRs` returns for the arguments from the fourth
on (one per string, in order, each with the address as written), and the
flags left by flag stripping, which are (multicast route on, keep-tx off,
hairpin on) when no flag token occurs in the arguments. -/
theorem attach_success_backend_call (E : Env) (w : World) (args : List String)
    (id bridge mtuText first : String) (more : List String) (fl : Flags) (pid : Int)
    (nsContainer nsHost : NsHandle) (mtu : Int)
    (h : Resolved E w args id (bridge :: mtuText :: first :: more) fl pid nsContainer nsHost)
    (hne : E.Equal nsHost nsContainer = false)
    (hmtu : E.Atoi mtuText = (mtu, none))
    (hcidrs : ∀ s ∈ first :: more, ∃ r, ParseCIDR E s = .ok r) :
    backendCalls (attach E w args).2 = backendCalls w ++
        [{ nsPath := E.NSPathByPid pid, name := toString pid, veth := E.VethName,
           bridge := bridge, mtu := mtu, withMulticastRoute := fl.withMulticastRoute,
           cidrs := (parseCIDRs E (first :: more)).1, keepTXOn := fl.keepTXOn,
           hairpinMode := fl.hairpinMode }] ∧
      (parseCIDRs E (first :: more)).1 = (first :: more).filterMap (hostRange E) ∧
      ((parseCIDRs E (first :: more)).1).length = (first :: more).length ∧
      ((∀ a ∈ args, isFlag a = false) →
        fl.withMulticastRoute = true ∧ fl.keepTXOn = false ∧ fl.hairpinMode = true) := by
  have hl := parseCIDRsLoop_ok E (first :: more) [] hcidrs
  simp only [List.nil_append] at hl
  have hp : parseCIDRs E (first :: more) = ((first :: more).filterMap (hostRange E), none) := hl
  refine ⟨?_, ?_, ?_, ?_⟩
  · rw [attach_resolved_parse E w args id _ fl pid nsContainer nsHost h hne,
      attachParse_mtu_ok E _ id bridge mtuText (first :: more) fl pid mtu _ hmtu hp, hp]
    cases hb : E.AttachContainer _ with
    | none => simp [backendCalls_log, backendCalls_guardWorld, attachCall]
    | some err =>
      simp only []
      split <;> simp [backendCalls_log, backendCalls_guardWorld, attachCall]
  · rw [hp]
  · rw [hp]
    exact filterMap_hostRange_length E _ hcidrs
  · intro hno
    have hs := h.stripped
    rw [stripFlags_eq] at hs
    have hfl : fl = flagsAfter Flags.initial (List.drop 0 args) := (Prod.mk.inj hs).2.symm
    have h1 : "--keep-tx-on" ∉ args := fun hm => by
      have := hno _ hm
      simp [isFlag] at this
    have h2 : "--no-multicast-route" ∉ args := fun hm => by
      have := hno _ hm
      simp [isFlag] at this
    have h3 : "--hairpin-mode=false" ∉ args := fun hm => by
      have := hno _ hm
      simp [isFlag] at this
    rw [hfl]
    simp [flagsAfter, Flags.initial, h1, h2, h3]

/-- C7 on scenario A of the spec: container `c1` with process id 4242, bridge
`weave`, MTU 1400 and the one CIDR 10.32.0.5/12 give one backend call, with
the range 10.32.0.5 under the mask of a 12-bit network and the initial flags. -/
theorem attach_success_backend_call_witness :
    backendCalls (attach (exampleEnv none true) World.empty
        ["c1", "weave", "1400", "10.32.0.5/12"]).2 =
      [{ nsPath := "/proc/4242/ns/net", name := "4242", veth := "ethwe", bridge := "weave",
         mtu := 1400, withMulticastRoute := true,
         cidrs := [{ IP := [10, 32, 0, 5], Mask := [255, 240, 0, 0] }],
         keepTXOn := false, hairpinMode := true }] :=
  (attach_success_backend_call (exampleEnv none true) World.empty
    ["c1", "weave", "1400", "10.32.0.5/12"] "c1" "weave" "1400" "10.32.0.5/12" []
    Flags.initial 4242 12 10 1400
    ⟨by decide, by rw [stripFlags_eq]; decide, rfl, rfl, rfl⟩ (by decide) (by decide)
    (by
      intro s hs
      rw [List.mem_singleton.mp hs]
      exact ⟨_, rfl⟩)).1.trans (by decide)

theorem attachResolve_handles (E : Env) (w : World) (args : List String) (fl : Flags) :
    (attachResolve E w args fl).2.handles = w.handles ∨
    (∃ pid c e, E.GetFromPid w.handles pid = .ok c ∧
      E.GetFromPid (w.handles ++ [c]) 1 = .error e ∧
      (attachResolve E w args fl).2.handles = w.handles ++ [c]) ∨
    (∃ pid c h, E.GetFromPid w.handles pid = .ok c ∧
      E.GetFromPid (w.handles ++ [c]) 1 = .ok h ∧
      (attachResolve E w args fl).2.handles = w.handles ++ [c, h]) := by
  unfold attachResolve
  cases h0 : args[0]? with
  | none => exact Or.inl rfl
  | some id =>
    simp only []
    have hw := (containerPid_world E w id).1
    rcases hc : containerPid E w id with ⟨_ | pid, w1⟩
    · rw [hc] at hw
      exact Or.inl hw
    · rw [hc] at hw
      simp only at hw
      simp only [World.log, World.acquire, hw]
      cases hg : E.GetFromPid w.handles pid with
      | error e => exact Or.inl rfl
      | ok c =>
        simp only []
        cases hh : E.GetFromPid (w.handles ++ [c]) 1 with
        | error e => exact Or.inr (Or.inl ⟨pid, c, e, hg, hh, rfl⟩)
        | ok h =>
          refine Or.inr (Or.inr ⟨pid, c, h, hg, hh, ?_⟩)
          simp only []
          split
          · simp
          · rw [(attachParse_world E _ args fl pid).1]
            simp

theorem attachResolve_calls (E : Env) (w : World) (args : List String) (fl : Flags) :
    backendCalls (attachResolve E w args fl).2 = backendCalls w ∨
    ∃ pid bridge mtuText, args[1]? = some bridge ∧ args[2]? = some mtuText ∧
      (E.Atoi mtuText).2 = none ∧ (parseCIDRs E (args.drop 3)).2 = none ∧
      backendCalls (attachResolve E w args fl).2 = backendCalls w ++
        [{ nsPath := E.NSPathByPid pid, name := toString pid, veth := E.VethName,
           bridge := bridge, mtu := (E.Atoi mtuText).1,
           withMulticastRoute := fl.withMulticastRoute,
           cidrs := (parseCIDRs E (args.drop 3)).1, keepTXOn := fl.keepTXOn,
           hairpinMode := fl.hairpinMode }] := by
  unfold attachResolve
  cases h0 : args[0]? with
  | none => exact Or.inl rfl
  | some id =>
    simp only []
    have hw := (containerPid_world E w id).2
    rcases hc : containerPid E w id with ⟨_ | pid, w1⟩
    · rw [hc] at hw
      exact Or.inl hw
    · rw [hc] at hw
      simp only at hw
      simp only []
      cases hg : E.GetFromPid (w1.log (.getFromPid pid)).handles pid with
      | error e => left; simp [backendCalls_log, hw]
      | ok c =>
        simp only []
        cases hh : E.GetFromPid _ 1 with
        | error e =>
          left
          simp only [backendCalls_log, World.acquire]
          simp [backendCalls, World.log, List.filterMap_append] at hw ⊢
          exact hw
        | ok h =>
          simp only []
          have hbase : backendCalls ((((w1.log (.getFromPid pid)).acquire c).log
              (.getFromPid 1)).acquire h |>.log (.equal h c)) = backendCalls w := by
            simp [backendCalls, World.log, World.acquire, List.filterMap_append] at hw ⊢
            exact hw
          split
          · left; exact hbase
          · rcases (attachParse_world E ((((w1.log (.getFromPid pid)).acquire c).log
              (.getFromPid 1)).acquire h |>.log (.equal h c)) args fl pid).2.2 with hq | hq
            · left; rw [hq, hbase]
            · obtain ⟨bridge, mtuText, q1, q2, q3, q4, q5⟩ := hq
              right
              exact ⟨pid, bridge, mtuText, q1, q2, q3, q4, by rw [q5, hbase]⟩

theorem attach_calls (E : Env) (w : World) (args : List String) :
    backendCalls (attach E w args).2 = backendCalls w ∨
    ∃ (c : AttachCall) (mtuText : String),
      (stripFlags args 0 Flags.initial).1[2]? = some mtuText ∧
      E.Atoi mtuText = (c.mtu, none) ∧
      backendCalls (attach E w args).2 = backendCalls w ++ [c] := by
  unfold attach
  by_cases hlen : args.length < 4
  · left
    simp [hlen, cmdUsage, backendCalls_log]
  · simp only [hlen, if_false]
    rcases hs : stripFlags args 0 Flags.initial with ⟨stripped, fl⟩
    simp only []
    rcases attachResolve_calls E w stripped fl with hq | ⟨pid, bridge, mtuText, q1, q2, q3, q4, q5⟩
    · exact Or.inl hq
    · refine Or.inr ⟨_, mtuText, q2, ?_, q5⟩
      exact Prod.ext rfl q3

/-- C8: in an invocation that reaches MTU parsing with four or more
positional arguments and an MTU text that `Atoi` rejects: if the first CIDR
text is not the empty string, `attach` returns the invalid-MTU error carrying
the MTU text; if it is the empty string, the MTU failure is passed over and
`attach` returns the CIDR parse error of the empty string.  In both cases the
log gains no `AttachContainer` call.  And in every invocation whatsoever, an
`AttachContainer` call that `attach` makes carries an MTU that `Atoi` returned
without error for the third positional argument. -/
theorem attach_mtu_failure (E : Env) (w : World) (args : List String)
    (id bridge mtuText first : String) (more : List String) (fl : Flags) (pid : Int)
    (nsContainer nsHost : NsHandle) (mtu : Int) (err : String)
    (h : Resolved E w args id (bridge :: mtuText :: first :: more) fl pid nsContainer nsHost)
    (hne : E.Equal nsHost nsContainer = false)
    (hmtu : E.Atoi mtuText = (mtu, some err)) :
    (first ≠ "" →
      attach E w args =
        (.returned (some (.parseMtu mtuText err)), guardWorld w id pid nsContainer nsHost)) ∧
    (first = "" →
      attach E w args =
        (.returned (some (.parseError "CIDR address" "")),
          guardWorld w id pid nsContainer nsHost)) ∧
    backendCalls (attach E w args).2 = backendCalls w ∧
    (∀ (w2 : World) (args2 : List String),
      backendCalls (attach E w2 args2).2 = backendCalls w2 ∨
      ∃ (c : AttachCall) (text : String),
        (stripFlags args2 0 Flags.initial).1[2]? = some text ∧
        E.Atoi text = (c.mtu, none) ∧
        backendCalls (attach E w2 args2).2 = backendCalls w2 ++ [c]) := by
  have hr := attach_resolved_parse E w args id _ fl pid nsContainer nsHost h hne
  have h1 : first ≠ "" →
      attach E w args =
        (.returned (some (.parseMtu mtuText err)), guardWorld w id pid nsContainer nsHost) := by
    intro hf
    rw [hr]
    simp [attachParse, hmtu, hf]
  have h2 : first = "" →
      attach E w args =
        (.returned (some (.parseError "CIDR address" "")),
          guardWorld w id pid nsContainer nsHost) := by
    intro hf
    subst hf
    rw [hr]
    simp [attachParse, hmtu, parseCIDRs_empty_first]
  refine ⟨h1, h2, ?_, fun w2 args2 => attach_calls E w2 args2⟩
  by_cases hf : first = ""
  · rw [h2 hf]
    exact backendCalls_guardWorld _ _ _ _ _
  · rw [h1 hf]
    exact backendCalls_guardWorld _ _ _ _ _

/-- C8 on an MTU text that is not a number: with a CIDR the invalid-MTU error
is returned, with the empty string in its place the CIDR parse error is. -/
theorem attach_mtu_failure_witness :
    (attach (exampleEnv none true) World.empty ["c1", "weave", "x400", "10.32.0.5/12"]).1 =
        .returned (some (.parseMtu "x400" "invalid syntax")) ∧
      (attach (exampleEnv none true) World.empty ["c1", "weave", "x400", ""]).1 =
        .returned (some (.parseError "CIDR address" "")) :=
  ⟨congrArg Prod.fst
      ((attach_mtu_failure (exampleEnv none true) World.empty
        ["c1", "weave", "x400", "10.32.0.5/12"] "c1" "weave" "x400" "10.32.0.5/12" []
        Flags.initial 4242 12 10 0 "invalid syntax"
        ⟨by decide, by rw [stripFlags_eq]; decide, rfl, rfl, rfl⟩ (by decide) (by decide)).1
        (by decide)),
    congrArg Prod.fst
      ((attach_mtu_failure (exampleEnv none true) World.empty
        ["c1", "weave", "x400", ""] "c1" "weave" "x400" "" []
        Flags.initial 4242 12 10 0 "invalid syntax"
        ⟨by decide, by rw [stripFlags_eq]; decide, rfl, rfl, rfl⟩ (by decide) (by decide)).2.1
        rfl)⟩

theorem parseCIDRsLoop_kill (E : Env) (k : Int → Nat → Option Nat) (args : List String) :
    ∀ cidrs : List IPNet,
      parseCIDRsLoop { E with Kill := k } args cidrs = parseCIDRsLoop E args cidrs := by
  induction args with
  | nil => intro cidrs; rfl
  | cons s rest ih =>
    intro cidrs
    have hs : ParseCIDR { E with Kill := k } s = ParseCIDR E s := rfl
    simp only [parseCIDRsLoop, hs]
    cases ParseCIDR E s with
    | error e => rfl
    | ok r => exact ih _

theorem detach_kill (E : Env) (k : Int → Nat → Option Nat) (w : World) (args : List String) :
    detach { E with Kill := k } w args = detach E w args := by
  have hc : ∀ id, containerPid { E with Kill := k } w id = containerPid E w id := fun _ => rfl
  simp only [detach, hc, parseCIDRs, parseCIDRsLoop_kill]

/-- C9: in a `detach` invocation with a container id and at least one CIDR,
where the container resolves to `pid` and every CIDR parses, `detach` returns
what `DetachContainer` returns for `NSPathByPid pid`, the container id,
`VethName` and the ranges of `parseCIDRs`: an error comes back as it is.  The
log gains the docker connection, the inspection and the backend call only (no
namespace handle is opened or compared, no signal is sent), and the result
does not depend on what `Kill` would answer. -/
theorem detach_returns_backend_result (E : Env) (w : World) (id first : String)
    (more : List String) (pid : Int)
    (hpid : (containerPid E w id).1 = .ok pid)
    (hcidrs : ∀ s ∈ first :: more, ∃ r, ParseCIDR E s = .ok r) :
    detach E w (id :: first :: more) =
        (.returned ((E.DetachContainer
            { nsPath := E.NSPathByPid pid, id := id, veth := E.VethName,
              cidrs := (parseCIDRs E (first :: more)).1 }).map Error.lib),
          { trace := w.trace ++ [.dockerConnect "1.18", .inspect id,
              .detachContainer
                { nsPath := E.NSPathByPid pid, id := id, veth := E.VethName,
                  cidrs := (parseCIDRs E (first :: more)).1 }]
            handles := w.handles }) ∧
      (parseCIDRs E (first :: more)).1 = (first :: more).filterMap (hostRange E) ∧
      ∀ k : Int → Nat → Option Nat,
        detach { E with Kill := k } w (id :: first :: more) = detach E w (id :: first :: more) := by
  have hl := parseCIDRsLoop_ok E (first :: more) [] hcidrs
  simp only [List.nil_append] at hl
  have hp : parseCIDRs E (first :: more) = ((first :: more).filterMap (hostRange E), none) := hl
  refine ⟨?_, by rw [hp], ?_⟩
  · simp [detach, containerPid_ok E w id pid hpid, hp, World.log]
  · intro k
    exact detach_kill E k w _

/-- C9 on a backend failure for a container whose process is gone: the
backend error is returned as it is. -/
theorem detach_returns_backend_result_witness :
    detach (exampleEnv (some "boom") false) World.empty ["c1", "10.0.0.1/8"] =
      (.returned (some (.lib "boom")),
        { trace := [.dockerConnect "1.18", .inspect "c1",
            .detachContainer
              { nsPath := "/proc/4242/ns/net", id := "c1", veth := "ethwe",
                cidrs := [{ IP := [10, 0, 0, 1], Mask := [255, 0, 0, 0] }] }]
          handles := [] }) :=
  (detach_returns_backend_result (exampleEnv (some "boom") false) World.empty "c1" "10.0.0.1/8"
    [] 4242 rfl
    (by
      intro s hs
      rw [List.mem_singleton.mp hs]
      exact ⟨_, rfl⟩)).1.trans (by decide)

/-- C10 as stated fails: after a successful `attach` from a world with no
open handle, the container handle and the host handle are both still open. -/
theorem attach_handles_released_counterexample :
    (attach (exampleEnv none true) World.empty ["c1", "weave", "1400", "10.32.0.5/12"]).1 =
        .returned none ∧
      (attach (exampleEnv none true) World.empty ["c1", "weave", "1400", "10.32.0.5/12"]).2.handles =
        [12, 10] ∧
      (attach (exampleEnv none true) World.empty ["c1", "weave", "1400", "10.32.0.5/12"]).2.handles ≠
        World.empty.handles := by
  have h : attach (exampleEnv none true) World.empty ["c1", "weave", "1400", "10.32.0.5/12"] =
      attachResolve (exampleEnv none true) World.empty ["c1", "weave", "1400", "10.32.0.5/12"]
        Flags.initial := by
    unfold attach
    rw [stripFlags_eq]
    rfl
  rw [h]
  decide

theorem attach_host_lookup_failed (E : Env) (w : World) (args : List String) (id : String)
    (rest : List String) (fl : Flags) (pid : Int) (nsContainer : NsHandle) (e : String)
    (h : ContainerOpened E w args id rest fl pid nsContainer)
    (he : E.GetFromPid (w.handles ++ [nsContainer]) 1 = .error e) :
    attach E w args =
      (.returned (some (.openHostNs e)),
        { trace := w.trace ++ [.dockerConnect "1.18", .inspect id, .getFromPid pid,
            .getFromPid 1]
          handles := w.handles ++ [nsContainer] }) := by
  have hlen : ¬ args.length < 4 := by have := h.enough; omega
  have hc := h.containerNs
  simp only [World.log, World.acquire] at *
  simp [attach, hlen, h.stripped, attachResolve, containerPid_ok E w id pid h.resolves,
    World.log, World.acquire, hc, he]

theorem attach_no_handle (E : Env) (w : World) (args : List String)
    (h : ¬ ∃ (id : String) (rest : List String) (fl : Flags) (pid : Int) (c : NsHandle),
      ContainerOpened E w args id rest fl pid c) :
    (attach E w args).2.handles = w.handles := by
  unfold attach
  by_cases hlen : args.length < 4
  · simp [hlen, cmdUsage, World.log]
  · simp only [hlen, if_false]
    rcases hs : stripFlags args 0 Flags.initial with ⟨stripped, fl⟩
    simp only []
    cases stripped with
    | nil => rfl
    | cons id rest =>
      unfold attachResolve
      simp only [List.getElem?_cons_zero]
      have hw := (containerPid_world E w id).1
      rcases hc : containerPid E w id with ⟨_ | pid, w1⟩
      · rw [hc] at hw
        exact hw
      · rw [hc] at hw
        simp only at hw
        simp only [World.log, World.acquire, hw]
        cases hg : E.GetFromPid w.handles pid with
        | error e => rfl
        | ok c =>
          exact absurd ⟨id, rest, fl, pid, c, by omega, hs, by rw [hc], hg⟩ h

/-- C10, amended: `attach` releases no namespace handle; when it returns, the
open handles are those open before the call followed by the handles it
obtained.  Once the container handle is obtained: if the host lookup fails,
the container handle alone is added and stays open; if the host lookup
succeeds, the container handle and the host handle are added and both are
still open at every later exit (host-networking rejection, MTU or CIDR parse
failure, backend failure, success, panic).  When no container handle is
obtained the open handles are unchanged, and the open handles equal those
before the call only in that case. -/
theorem attach_handles_stay_open (E : Env) (w : World) (args : List String) :
    (∀ (id : String) (rest : List String) (fl : Flags) (pid : Int) (nsContainer : NsHandle),
      ContainerOpened E w args id rest fl pid nsContainer →
        (∀ e, E.GetFromPid (w.handles ++ [nsContainer]) 1 = .error e →
          (attach E w args).2.handles = w.handles ++ [nsContainer]) ∧
        (∀ nsHost, E.GetFromPid (w.handles ++ [nsContainer]) 1 = .ok nsHost →
          (attach E w args).2.handles = w.handles ++ [nsContainer, nsHost])) ∧
    (∀ (id : String) (rest : List String) (fl : Flags) (pid : Int)
      (nsContainer nsHost : NsHandle),
      Resolved E w args id rest fl pid nsContainer nsHost →
        (attach E w args).2.handles = w.handles ++ [nsContainer, nsHost]) ∧
    ((attach E w args).2.handles = w.handles ↔
      ¬ ∃ (id : String) (rest : List String) (fl : Flags) (pid : Int) (c : NsHandle),
        ContainerOpened E w args id rest fl pid c) ∧
    ((attach E w args).2.handles = w.handles ∨
      (∃ pid c e, E.GetFromPid w.handles pid = .ok c ∧
        E.GetFromPid (w.handles ++ [c]) 1 = .error e ∧
        (attach E w args).2.handles = w.handles ++ [c]) ∨
      (∃ pid c h, E.GetFromPid w.handles pid = .ok c ∧
        E.GetFromPid (w.handles ++ [c]) 1 = .ok h ∧
        (attach E w args).2.handles = w.handles ++ [c, h])) := by
  have both : ∀ (id : String) (rest : List String) (fl : Flags) (pid : Int)
      (nsContainer nsHost : NsHandle),
      Resolved E w args id rest fl pid nsContainer nsHost →
        (attach E w args).2.handles = w.handles ++ [nsContainer, nsHost] := by
    intro id rest fl pid nsContainer nsHost h
    rw [attach_resolved E w args id rest fl pid nsContainer nsHost h]
    split
    · rfl
    · rw [(attachParse_world E _ _ fl pid).1]
      rfl
  have opened : ∀ (id : String) (rest : List String) (fl : Flags) (pid : Int)
      (nsContainer : NsHandle),
      ContainerOpened E w args id rest fl pid nsContainer →
        (∀ e, E.GetFromPid (w.handles ++ [nsContainer]) 1 = .error e →
          (attach E w args).2.handles = w.handles ++ [nsContainer]) ∧
        (∀ nsHost, E.GetFromPid (w.handles ++ [nsContainer]) 1 = .ok nsHost →
          (attach E w args).2.handles = w.handles ++ [nsContainer, nsHost]) := by
    intro id rest fl pid nsContainer h
    constructor
    · intro e he
      rw [attach_host_lookup_failed E w args id rest fl pid nsContainer e h he]
    · intro nsHost hh
      exact both id rest fl pid nsContainer nsHost
        ⟨h.enough, h.stripped, h.resolves, h.containerNs, hh⟩
  refine ⟨opened, both, ⟨?_, attach_no_handle E w args⟩, ?_⟩
  · intro heq hex
    obtain ⟨id, rest, fl, pid, c, hco⟩ := hex
    have ho := opened id rest fl pid c hco
    cases hh : E.GetFromPid (w.handles ++ [c]) 1 with
    | error e =>
      have := ho.1 e hh
      rw [heq] at this
      have hl := congrArg List.length this
      simp at hl
    | ok nsHost =>
      have := ho.2 nsHost hh
      rw [heq] at this
      have hl := congrArg List.length this
      simp at hl
  · unfold attach
    by_cases hlen : args.length < 4
    · left
      simp [hlen, cmdUsage, World.log]
    · simp only [hlen, if_false]
      rcases hs : stripFlags args 0 Flags.initial with ⟨stripped, fl⟩
      exact attachResolve_handles E w stripped fl

/-- C10, amended, at concrete invocations: when the host lookup fails the
container handle is still open; on a backend failure both handles are still
open; and an invocation whose container is unknown leaves the open handles as
they were. -/
theorem attach_handles_stay_open_witness :
    (attach (sealedHostEnv none true) World.empty
        ["c1", "weave", "1400", "10.32.0.5/12"]).2.handles = [12] ∧
      (attach (exampleEnv (some "boom") true) World.empty
        ["c1", "weave", "1400", "10.32.0.5/12"]).2.handles = [12, 10] ∧
      (attach (exampleEnv none true) World.empty
        ["c9", "weave", "1400", "10.32.0.5/12"]).2.handles = [] :=
  ⟨((attach_handles_stay_open (sealedHostEnv none true) World.empty
      ["c1", "weave", "1400", "10.32.0.5/12"]).1 "c1" ["weave", "1400", "10.32.0.5/12"]
      Flags.initial 4242 12
      ⟨by decide, by rw [stripFlags_eq]; decide, rfl, rfl⟩).1 "permission denied" rfl,
    (attach_handles_stay_open (exampleEnv (some "boom") true) World.empty
      ["c1", "weave", "1400", "10.32.0.5/12"]).2.1 "c1" ["weave", "1400", "10.32.0.5/12"]
      Flags.initial 4242 12 10
      ⟨by decide, by rw [stripFlags_eq]; decide, rfl, rfl, rfl⟩,
    (attach_handles_stay_open (exampleEnv none true) World.empty
      ["c9", "weave", "1400", "10.32.0.5/12"]).2.2.1.mpr (by
        rintro ⟨id, rest, fl, pid, c, hco⟩
        have hs := hco.stripped
        rw [stripFlags_eq] at hs
        have hf : List.take 0 ["c9", "weave", "1400", "10.32.0.5/12"] ++
            List.filter (fun a => !isFlag a)
              (List.drop 0 ["c9", "weave", "1400", "10.32.0.5/12"]) =
            ["c9", "weave", "1400", "10.32.0.5/12"] := by decide
        rw [hf] at hs
        have hid : "c9" = id := (List.cons.inj (Prod.mk.inj hs).1).1
        have hr := hco.resolves
        rw [← hid] at hr
        have hne : (containerPid (exampleEnv none true) World.empty "c9").1 =
            .error (.inspectFailed "c9" "no such container") := rfl
        rw [hne] at hr
        cases hr)⟩

/-- C4 at its failing inputs.  One flag and three positional arguments pass
the length test made before the flags are removed: the backend is called with
no address range and `attach` returns no error.  With an MTU text that does
not parse, the same shape panics on the read of the fourth positional
argument, and four flags alone panic on the read of the container id. -/
theorem attach_usage_check_counts_flags :
    (attach (exampleEnv none true) World.empty ["--keep-tx-on", "c1", "br0", "1400"]).1 =
        .returned none ∧
      backendCalls
          (attach (exampleEnv none true) World.empty ["--keep-tx-on", "c1", "br0", "1400"]).2 =
        [{ nsPath := "/proc/4242/ns/net", name := "4242", veth := "ethwe", bridge := "br0",
           mtu := 1400, withMulticastRoute := true, cidrs := [], keepTXOn := true,
           hairpinMode := true }] ∧
      (attach (exampleEnv none true) World.empty ["--keep-tx-on", "c1", "br0", "x400"]).1 =
        .panicked ∧
      (attach (exampleEnv none true) World.empty
          ["--keep-tx-on", "--keep-tx-on", "--keep-tx-on", "--keep-tx-on"]).1 = .panicked := by
  have h : ∀ args : List String, ¬ args.length < 4 →
      attach (exampleEnv none true) World.empty args =
        attachResolve (exampleEnv none true) World.empty
          (args.filter (fun a => !isFlag a)) (flagsAfter Flags.initial args) := by
    intro args hlen
    unfold attach
    rw [stripFlags_eq, if_neg hlen]
    rfl
  rw [h _ (by decide), h _ (by decide), h _ (by decide)]
  decide

/-- C5 at its failing input.  For the field "10.0.0.1/24 10.0.0.2/24",
`rewriteEtcHosts` hands the hosts rewriter the network address 10.0.0.0 twice,
while `parseCIDRs` on the two tokens gives the addresses 10.0.0.1 and
10.0.0.2 as written. -/
theorem rewriteEtcHosts_passes_network_address :
    rewriteEtcHosts (exampleEnv none true) World.empty
        ["/etc/hosts", "c1.weave.local", "img", "10.0.0.1/24 10.0.0.2/24"] =
      (.returned none,
        { trace := [.getenv "DOCKER_HOST",
            .stubProxy { DockerHost := "unix:///var/run/docker.sock", Image := "img" },
            .rewriteEtcHosts
              { config := { DockerHost := "unix:///var/run/docker.sock", Image := "img" },
                hostsPath := "/etc/hosts", fqdn := "c1.weave.local",
                ips := [{ IP := [10, 0, 0, 0], Mask := [255, 255, 255, 0] },
                        { IP := [10, 0, 0, 0], Mask := [255, 255, 255, 0] }],
                extraHosts := [] }]
          handles := [] }) ∧
      parseCIDRs (exampleEnv none true) (Fields "10.0.0.1/24 10.0.0.2/24") =
        ([{ IP := [10, 0, 0, 1], Mask := [255, 255, 255, 0] },
          { IP := [10, 0, 0, 2], Mask := [255, 255, 255, 0] }], none) := by
  decide

end Weave
